import Mathlib

/-!
Blocks runtime ABI (blocks_runtime.h)

A shallow embedding of the ABI header of the blocks runtime: the flag
constants, the field-kind tags, the `IS_SET` test and the four records
(`block_descriptor_copydispose`, `block_descriptor`, `block_literal`,
`block_byref_obj`), followed by a model of the lifecycle operations the header
is the interface of.

Machine words are natural numbers holding the bit pattern of the C value.
-/

namespace Blocks

/-! enum block_flags -/

/-- The block descriptor contains copy and dispose helpers. -/
def BLOCK_HAS_COPY_DISPOSE : Nat := 1 <<< 25

/-- The helpers have C++ code. -/
def BLOCK_HAS_CTOR : Nat := 1 <<< 26

/-- Block is stored in global memory and does not need to be copied. -/
def BLOCK_IS_GLOBAL : Nat := 1 <<< 28

/-- Block function returns a structure via a pointer passed in by the caller. -/
def BLOCK_USE_SRET : Nat := 1 <<< 29

/-- Block has an Objective-C type encoding. -/
def BLOCK_HAS_SIGNATURE : Nat := 1 <<< 30

/-- Mask for the reference count in the byref structure's flags field. -/
def BLOCK_REFCOUNT_MASK : Nat := 0x00ffffff

/-- The five flag enumerators of `enum block_flags`, in declaration order. -/
def block_flags : List Nat :=
  [BLOCK_HAS_COPY_DISPOSE, BLOCK_HAS_CTOR, BLOCK_IS_GLOBAL, BLOCK_USE_SRET,
   BLOCK_HAS_SIGNATURE]

/-! the anonymous enum of field kinds -/

/-- The value is of some id-like type. -/
def BLOCK_FIELD_IS_OBJECT : Nat := 3

/-- The field is a block. -/
def BLOCK_FIELD_IS_BLOCK : Nat := 7

/-- The field is an indirect reference to a `__block` variable. -/
def BLOCK_FIELD_IS_BYREF : Nat := 8

/-- Declared `__weak`. -/
def BLOCK_FIELD_IS_WEAK : Nat := 16

/-- Called from byref copy/dispose helpers. -/
def BLOCK_BYREF_CALLER : Nat := 128

/-- The macro `IS_SET(x, y)`, that is `((x & y) == y)`. -/
def IS_SET (x y : Nat) : Bool := (x &&& y) == y

/-! C integer operators on a 32-bit word -/

/-- The C expression `w | f` on 32-bit words. -/
def word_or (w f : Nat) : Nat := (w ||| f) % 2 ^ 32

/-- The C expression `w & ~f` on 32-bit words (`~f` is `f` xor all ones). -/
def word_andnot (w f : Nat) : Nat := w &&& ((2 ^ 32 - 1) ^^^ (f % 2 ^ 32))

/-! record declarations and their layout -/

/-- The C types that occur as member types in the header. -/
inductive CType where
  | voidPtr
  | charPtr
  | structPtr (tag : String)
  | fnPtr
  | int
  | unsignedLong
  deriving DecidableEq, Repr

/-- The sizes a target gives to pointers and to `unsigned long`, in bytes;
`int` is four bytes. -/
structure Target where
  ptr : Nat
  long : Nat
  deriving DecidableEq, Repr

/-- Size in bytes of a member type on a target. -/
def CType.size (t : Target) : CType → Nat
  | .voidPtr => t.ptr
  | .charPtr => t.ptr
  | .structPtr _ => t.ptr
  | .fnPtr => t.ptr
  | .int => 4
  | .unsignedLong => t.long

/-- Natural alignment: every scalar is aligned to its own size. -/
def CType.align (t : Target) (c : CType) : Nat := c.size t

/-- Round `off` up to the next multiple of `a`. -/
def alignUp (off a : Nat) : Nat := (off + a - 1) / a * a

/-- Offsets of the members of a record laid out in declaration order starting
at `off`, each member at the next offset aligned for its type. -/
def layoutFrom (t : Target) (off : Nat) : List (String × CType) → List (String × Nat)
  | [] => []
  | (n, c) :: rest =>
    (n, alignUp off (c.align t)) :: layoutFrom t (alignUp off (c.align t) + c.size t) rest

/-- Offsets of the members of a record. -/
def layout (t : Target) (fs : List (String × CType)) : List (String × Nat) :=
  layoutFrom t 0 fs

/-- First byte after the last member of a record laid out from `off`. -/
def endFrom (t : Target) (off : Nat) : List (String × CType) → Nat
  | [] => off
  | (_, c) :: rest => endFrom t (alignUp off (c.align t) + c.size t) rest

/-- Alignment of a record: the largest alignment of a member. -/
def recordAlign (t : Target) (fs : List (String × CType)) : Nat :=
  (fs.map fun f => f.2.align t).foldl max 1

/-- The value of `sizeof` for a record: the end of the last member rounded up
to the record's alignment.  What is appended to a record begins here. -/
def sizeOfRecord (t : Target) (fs : List (String × CType)) : Nat :=
  alignUp (endFrom t 0 fs) (recordAlign t fs)

/-- Sum of the sizes of the members: equal to `sizeOfRecord` exactly when the
record has no padding. -/
def sumOfSizes (t : Target) (fs : List (String × CType)) : Nat :=
  (fs.map fun f => f.2.size t).sum

/-- Offset of the member called `name`. -/
def offsetOf (t : Target) (fs : List (String × CType)) (name : String) : Option Nat :=
  (layout t fs).lookup name

/-- Members of `struct block_descriptor_copydispose`, in declaration order. -/
def block_descriptor_copydispose_members : List (String × CType) :=
  [("reserved", .unsignedLong), ("size", .unsignedLong), ("copy_helper", .fnPtr),
   ("dispose_helper", .fnPtr), ("encoding", .charPtr)]

/-- Members of `struct block_descriptor`, in declaration order. -/
def block_descriptor_members : List (String × CType) :=
  [("reserved", .unsignedLong), ("size", .unsignedLong), ("encoding", .charPtr)]

/-- Members of `struct block_literal`, in declaration order. -/
def block_literal_members : List (String × CType) :=
  [("isa", .voidPtr), ("flags", .int), ("reserved", .int), ("invoke", .fnPtr),
   ("descriptor", .structPtr "block_descriptor_copydispose")]

/-- Members of `struct block_byref_obj`, in declaration order. -/
def block_byref_obj_members : List (String × CType) :=
  [("isa", .voidPtr), ("forwarding", .structPtr "block_byref_obj"), ("flags", .int), ("size", .int),
   ("byref_keep", .fnPtr), ("byref_dispose", .fnPtr)]

/-! lifecycle model

The header declares the records only; the routines that copy and release them
are not part of it.  They are modelled below from the component contracts of
the specification (Storage-Class Resolver, Copy Engine, Dispose Engine, Field
Dispatcher, Shared-Capture Cell Manager).  An address is a natural number, one
per record. -/

/-- Values of the `isa` slot of a closure: the two distinguished tags
`&_NSConcreteStackBlock` and `&_NSConcreteGlobalBlock`, or any other value. -/
inductive IsaTag where
  | stackBlock
  | globalBlock
  | other (v : Nat)
  deriving DecidableEq, Repr

/-- Result of the Storage-Class Resolver. -/
inductive StorageClass where
  | Static
  | Transient
  | Persistent
  deriving DecidableEq, Repr

/-- One captured variable appended to a closure, or the payload of a capture
cell: the kind tag the compiler-generated helper passes for it (`none` for
plain data the helper does not touch) and the content of the slot. -/
structure Captured where
  kind : Option Nat
  value : Nat
  deriving DecidableEq, Repr

/-- The descriptor of a closure (`struct block_descriptor_copydispose`).  The
two helper members hold the addresses of compiler-generated routines, present
exactly when the closure has `BLOCK_HAS_COPY_DISPOSE`; what these routines do
is given by `copy_helper` and `dispose_helper` below. -/
structure block_descriptor_copydispose where
  reserved : Nat
  size : Nat
  copy_helper : Nat
  dispose_helper : Nat
  encoding : Nat
  deriving DecidableEq, Repr

/-- The closure record `struct block_literal` with the block variables that
are appended to it. -/
structure block_literal where
  isa : IsaTag
  flags : Nat
  reserved : Nat
  invoke : Nat
  descriptor : block_descriptor_copydispose
  vars : List Captured
  deriving DecidableEq, Repr

/-- The capture cell `struct block_byref_obj` with the `__block` variable that
is appended to it.  The members `byref_keep` and `byref_dispose` hold the
addresses of the cell's own copy and dispose routines; what these do is given
by the kind of the payload. -/
structure block_byref_obj where
  isa : Nat
  forwarding : Nat
  flags : Nat
  size : Nat
  byref_keep : Nat
  byref_dispose : Nat
  payload : Captured
  deriving DecidableEq, Repr

/-- What lives at an address. -/
inductive Obj where
  | block (b : block_literal)
  | byref (c : block_byref_obj)
  deriving DecidableEq, Repr

/-- Calls made to the external collaborators (object ownership, weak
references), which the runtime treats as black boxes. -/
inductive ExtCall where
  | retain (a : Nat)
  | release (a : Nat)
  | weakAssign (a : Nat)
  | weakDispose (a : Nat)
  deriving DecidableEq, Repr

/-- Ways an operation can end without a result. -/
inductive Fault where
  | outOfFuel
  | contract
  | underflow
  deriving DecidableEq, Repr

/-- The state the runtime works on: memory, the allocator's next address, the
log of addresses handed out by the allocator (newest first), the log of
addresses given back, and the log of external calls. -/
structure Runtime where
  mem : Nat → Option Obj
  brk : Nat
  mallocs : List Nat
  frees : List Nat
  external : List ExtCall

/-- Write a record at an address. -/
def Runtime.store (σ : Runtime) (a : Nat) (o : Obj) : Runtime :=
  { σ with mem := Function.update σ.mem a (some o) }

/-- Take a fresh address from the allocator.  Addresses are abstract, one per
record, so the requested size does not enter. -/
def Runtime.malloc (σ : Runtime) : Runtime × Nat :=
  ({ σ with brk := σ.brk + 1, mallocs := σ.brk :: σ.mallocs }, σ.brk)

/-- Give the storage at an address back. -/
def Runtime.free (σ : Runtime) (a : Nat) : Runtime :=
  { σ with mem := Function.update σ.mem a none, frees := a :: σ.frees }

/-- Record a call to an external collaborator. -/
def Runtime.call (σ : Runtime) (c : ExtCall) : Runtime :=
  { σ with external := c :: σ.external }

/-- An address is off the stack when the allocator handed it out. -/
def Runtime.offStack (σ : Runtime) (a : Nat) : Bool := σ.mallocs.contains a

/-- Write `v` into the `i`-th captured variable of the closure at `h`. -/
def Runtime.writeSlot (σ : Runtime) (h : Nat) (i : Nat) (v : Nat) : Runtime :=
  match σ.mem h with
  | some (.block b) =>
    σ.store h (.block { b with vars := b.vars.modify (fun x => { x with value := v }) i })
  | _ => σ

/-- Write `v` into the payload of the cell at `h`. -/
def Runtime.writePayload (σ : Runtime) (h : Nat) (v : Nat) : Runtime :=
  match σ.mem h with
  | some (.byref c) => σ.store h (.byref { c with payload := { c.payload with value := v } })
  | _ => σ

/-- The reference count held in the low 24 bits of a cell's flags word. -/
def refcount (flags : Nat) : Nat := flags &&& BLOCK_REFCOUNT_MASK

/-- A flags word with its count replaced by `n`, the flag byte kept. -/
def set_refcount (flags n : Nat) : Nat := flags - refcount flags + n

/-- The four field kinds of the Field Dispatcher. -/
inductive FieldKind where
  | object
  | block
  | byref
  | weak
  deriving DecidableEq, Repr

/-- Modelled from the spec: the decoding of the `kind` argument of the Field
Dispatcher (the bodies of `_Block_object_assign` and `_Block_object_dispose` are
missing).  The "called from cell helper" modifier is an optional addition to a
kind; what remains is one of the three base kinds or carries the weak bit; any
other value is not a recognised kind. -/
def fieldKind (kind : Nat) : Option FieldKind :=
  let k := word_andnot kind BLOCK_BYREF_CALLER
  if k = BLOCK_FIELD_IS_OBJECT then some .object
  else if k = BLOCK_FIELD_IS_BLOCK then some .block
  else if k = BLOCK_FIELD_IS_BYREF then some .byref
  else if IS_SET k BLOCK_FIELD_IS_WEAK then some .weak
  else none

/-- Modelled from the spec: the Storage-Class Resolver `classify` (missing from
the header): reads the identity tag; the two distinguished tags mean transient
and persistent-static, any other value means already promoted heap storage. -/
def classify (isa : IsaTag) : StorageClass :=
  match isa with
  | .stackBlock => .Transient
  | .globalBlock => .Static
  | .other _ => .Persistent

/-- Modelled from the spec: the compiler-generated field-copy routine (missing):
for each captured variable in order it invokes the Field Dispatcher's copy
operation `asg` tagged with the variable's kind and stores the result in the
destination slot; plain data keeps its bitwise copy. -/
def copy_helper (asg : Runtime → Nat → Nat → Except Fault (Runtime × Nat)) (dst : Nat) :
    Nat → Runtime → List Captured → Except Fault Runtime
  | _, σ, [] => .ok σ
  | i, σ, x :: rest =>
    match x.kind with
    | none => copy_helper asg dst (i + 1) σ rest
    | some k =>
      match asg σ x.value k with
      | .ok (σ1, v) => copy_helper asg dst (i + 1) (σ1.writeSlot dst i v) rest
      | .error e => .error e

/-- Modelled from the spec: the compiler-generated field-dispose routine
(missing): for each captured variable in order it invokes the Field
Dispatcher's dispose operation `dsp` tagged with the variable's kind. -/
def dispose_helper (dsp : Runtime → Nat → Nat → Except Fault Runtime) :
    Runtime → List Captured → Except Fault Runtime
  | σ, [] => .ok σ
  | σ, x :: rest =>
    match x.kind with
    | none => dispose_helper dsp σ rest
    | some k =>
      match dsp σ x.value k with
      | .ok σ1 => dispose_helper dsp σ1 rest
      | .error e => .error e

mutual

/-- Modelled from the spec: the Copy Engine `copy(object)` (the body of
`_Block_copy` is missing).  Static: the same identity, no side effects.
Persistent: increment the reference count, the same identity.  Transient:
allocate persistent storage, copy the record, set the count to one, mark it
persistent and, only if the flags say helpers are present, run the field-copy
routine.  The first argument bounds the nesting depth of the calls. -/
def copy : Nat → Runtime → Nat → Except Fault (Runtime × Nat)
  | 0, _, _ => .error .outOfFuel
  | fuel + 1, σ, a =>
    match σ.mem a with
    | some (.block b) =>
      match classify b.isa with
      | .Static => .ok (σ, a)
      | .Persistent => .ok (σ.store a (.block { b with reserved := b.reserved + 1 }), a)
      | .Transient =>
        let σ1 := (σ.malloc.1).store σ.malloc.2 (.block { b with isa := .other 0, reserved := 1 })
        if IS_SET b.flags BLOCK_HAS_COPY_DISPOSE then
          match copy_helper (assign fuel) σ.malloc.2 0 σ1 b.vars with
          | .ok σ2 => .ok (σ2, σ.malloc.2)
          | .error e => .error e
        else .ok (σ1, σ.malloc.2)
    | _ => .error .contract
termination_by structural fuel => fuel

/-- Modelled from the spec: the Field Dispatcher's `assign(dst_slot, src_value,
kind)` (the body of `_Block_object_assign` is missing); it returns the value
the destination slot receives. -/
def assign : Nat → Runtime → Nat → Nat → Except Fault (Runtime × Nat)
  | 0, _, _, _ => .error .outOfFuel
  | fuel + 1, σ, src, kind =>
    match fieldKind kind with
    | some .object => .ok (σ.call (.retain src), src)
    | some .block => copy fuel σ src
    | some .byref => promote_or_retain fuel σ src
    | some .weak => .ok (σ.call (.weakAssign src), src)
    | none => .error .contract
termination_by structural fuel => fuel

/-- Modelled from the spec: the Shared-Capture Cell Manager's
`promote_or_retain(cell)` (missing).  Forwarding already off the stack:
increment the count of the forwarded cell and return it.  Still
self-referential on transient storage: allocate, copy header and payload
(running the keep routine when the payload is not plain), set the new cell's
forwarding to itself and its count to one, and repoint the original cell's
forwarding to the new cell. -/
def promote_or_retain : Nat → Runtime → Nat → Except Fault (Runtime × Nat)
  | 0, _, _ => .error .outOfFuel
  | fuel + 1, σ, a =>
    match σ.mem a with
    | some (.byref c) =>
      if σ.offStack c.forwarding then
        match σ.mem c.forwarding with
        | some (.byref f) =>
          .ok (σ.store c.forwarding (.byref { f with flags := f.flags + 1 }), c.forwarding)
        | _ => .error .contract
      else if c.forwarding = a then
        let h := σ.malloc.2
        let σ1 := (σ.malloc.1).store h (.byref c)
        let kept : Except Fault Runtime :=
          match c.payload.kind with
          | none => .ok σ1
          | some k =>
            match assign fuel σ1 c.payload.value (k ||| BLOCK_BYREF_CALLER) with
            | .ok (σ2, v) => .ok (σ2.writePayload h v)
            | .error e => .error e
        match kept with
        | .ok σ2 =>
          match σ2.mem h, σ2.mem a with
          | some (.byref n), some (.byref o) =>
            .ok (((σ2.store h (.byref { n with forwarding := h, flags := set_refcount n.flags 1 })).store
              a (.byref { o with forwarding := h })), h)
          | _, _ => .error .contract
        | .error e => .error e
      else .error .contract
    | _ => .error .contract
termination_by structural fuel => fuel

end

mutual

/-- Modelled from the spec: the Dispose Engine `release(object)` (the body of
`_Block_release` is missing).  Static: no-op.  Otherwise decrement the count;
nonzero: return; zero: if the flags say helpers are present run the
field-dispose routine, then free the storage.  A release below zero is
rejected. -/
def release : Nat → Runtime → Nat → Except Fault Runtime
  | 0, _, _ => .error .outOfFuel
  | fuel + 1, σ, a =>
    match σ.mem a with
    | some (.block b) =>
      match classify b.isa with
      | .Static => .ok σ
      | _ =>
        if b.reserved = 0 then .error .underflow
        else if b.reserved - 1 ≠ 0 then
          .ok (σ.store a (.block { b with reserved := b.reserved - 1 }))
        else
          let σ1 := σ.store a (.block { b with reserved := 0 })
          if IS_SET b.flags BLOCK_HAS_COPY_DISPOSE then
            match dispose_helper (dispose fuel) σ1 b.vars with
            | .ok σ2 => .ok (σ2.free a)
            | .error e => .error e
          else .ok (σ1.free a)
    | _ => .error .contract
termination_by structural fuel => fuel

/-- Modelled from the spec: the Field Dispatcher's `dispose(slot, kind)` (the
body of `_Block_object_dispose` is missing). -/
def dispose : Nat → Runtime → Nat → Nat → Except Fault Runtime
  | 0, _, _, _ => .error .outOfFuel
  | fuel + 1, σ, v, kind =>
    match fieldKind kind with
    | some .object => .ok (σ.call (.release v))
    | some .block => release fuel σ v
    | some .byref => byref_release fuel σ v
    | some .weak => .ok (σ.call (.weakDispose v))
    | none => .error .contract
termination_by structural fuel => fuel

/-- Modelled from the spec: the Shared-Capture Cell Manager's `release(cell)`
(missing): through the forwarding reference, decrement; at zero run the cell's
dispose routine on the payload, then free the storage. -/
def byref_release : Nat → Runtime → Nat → Except Fault Runtime
  | 0, _, _ => .error .outOfFuel
  | fuel + 1, σ, a =>
    match σ.mem a with
    | some (.byref c) =>
      match σ.mem c.forwarding with
      | some (.byref f) =>
        if refcount f.flags = 0 then .error .underflow
        else if refcount (f.flags - 1) ≠ 0 then
          .ok (σ.store c.forwarding (.byref { f with flags := f.flags - 1 }))
        else
          let σ1 := σ.store c.forwarding (.byref { f with flags := f.flags - 1 })
          match f.payload.kind with
          | none => .ok (σ1.free c.forwarding)
          | some k =>
            match dispose fuel σ1 f.payload.value (k ||| BLOCK_BYREF_CALLER) with
            | .ok σ2 => .ok (σ2.free c.forwarding)
            | .error e => .error e
      | _ => .error .contract
    | _ => .error .contract
termination_by structural fuel => fuel

end

/-- A plain capture cell on the stack, forwarding to itself (address 1). -/
def sampleCell : block_byref_obj :=
  { isa := 0, forwarding := 1, flags := 0, size := 40, byref_keep := 0, byref_dispose := 0,
    payload := ⟨none, 42⟩ }

/-- A closure on the stack capturing the cell at address 1. -/
def sampleStackBlock : block_literal :=
  { isa := .stackBlock, flags := BLOCK_HAS_COPY_DISPOSE, reserved := 0, invoke := 0,
    descriptor := ⟨0, 40, 0, 0, 0⟩, vars := [⟨some BLOCK_FIELD_IS_BYREF, 1⟩] }

/-- A closure in global storage. -/
def sampleGlobalBlock : block_literal :=
  { isa := .globalBlock, flags := BLOCK_IS_GLOBAL, reserved := 0, invoke := 0,
    descriptor := ⟨0, 32, 0, 0, 0⟩, vars := [] }

/-- A closure on the heap holding one reference. -/
def sampleHeapBlock : block_literal :=
  { isa := .other 0, flags := 0, reserved := 1, invoke := 0,
    descriptor := ⟨0, 32, 0, 0, 0⟩, vars := [] }

/-- A small state: the cell at 1, two stack closures at 2 and 3 capturing it, a
global closure at 4 and a heap closure at 5; the allocator continues at 10. -/
def sampleRuntime : Runtime :=
  { mem := fun a =>
      if a = 1 then some (.byref sampleCell)
      else if a = 2 then some (.block sampleStackBlock)
      else if a = 3 then some (.block sampleStackBlock)
      else if a = 4 then some (.block sampleGlobalBlock)
      else if a = 5 then some (.block sampleHeapBlock)
      else none
    brk := 10
    mallocs := [5]
    frees := []
    external := [] }

/-! theorems about the header -/

/-- C1: the flag constants are the single bits 25, 26, 28, 29 and 30, pairwise
distinct, and each is below 2^31. -/
theorem block_flags_bit_positions :
    BLOCK_HAS_COPY_DISPOSE = 2 ^ 25 ∧ BLOCK_HAS_CTOR = 2 ^ 26 ∧ BLOCK_IS_GLOBAL = 2 ^ 28 ∧
    BLOCK_USE_SRET = 2 ^ 29 ∧ BLOCK_HAS_SIGNATURE = 2 ^ 30 ∧
    (∀ f ∈ block_flags, ∃ k, f = 2 ^ k ∧ ∀ i, f.testBit i = decide (i = k)) ∧
    block_flags.Nodup ∧
    (∀ f ∈ block_flags, f < 2 ^ 31) := by
  refine ⟨by decide, by decide, by decide, by decide, by decide, ?_, by decide, by decide⟩
  intro f hf
  simp only [block_flags, List.mem_cons, List.mem_singleton, List.mem_nil_iff, or_false] at hf
  rcases hf with h | h | h | h | h
  · exact ⟨25, by rw [h]; decide, fun i => by
      rw [h, show BLOCK_HAS_COPY_DISPOSE = 2 ^ 25 by decide, Nat.testBit_two_pow]
      simp [eq_comm]⟩
  · exact ⟨26, by rw [h]; decide, fun i => by
      rw [h, show BLOCK_HAS_CTOR = 2 ^ 26 by decide, Nat.testBit_two_pow]
      simp [eq_comm]⟩
  · exact ⟨28, by rw [h]; decide, fun i => by
      rw [h, show BLOCK_IS_GLOBAL = 2 ^ 28 by decide, Nat.testBit_two_pow]
      simp [eq_comm]⟩
  · exact ⟨29, by rw [h]; decide, fun i => by
      rw [h, show BLOCK_USE_SRET = 2 ^ 29 by decide, Nat.testBit_two_pow]
      simp [eq_comm]⟩
  · exact ⟨30, by rw [h]; decide, fun i => by
      rw [h, show BLOCK_HAS_SIGNATURE = 2 ^ 30 by decide, Nat.testBit_two_pow]
      simp [eq_comm]⟩

/-- C2: the field-kind tags have the values 3, 7, 8, 16 and 128. -/
theorem field_kind_values :
    BLOCK_FIELD_IS_OBJECT = 3 ∧ BLOCK_FIELD_IS_BLOCK = 7 ∧ BLOCK_FIELD_IS_BYREF = 8 ∧
    BLOCK_FIELD_IS_WEAK = 16 ∧ BLOCK_BYREF_CALLER = 128 := by
  decide

theorem refcount_mask_eq : BLOCK_REFCOUNT_MASK = 2 ^ 24 - 1 := by decide

theorem and_refcount_mask (w : Nat) : w &&& BLOCK_REFCOUNT_MASK = w % 2 ^ 24 := by
  rw [refcount_mask_eq, Nat.and_pow_two_sub_one_eq_mod]

theorem mem_block_flags_iff (f : Nat) :
    f ∈ block_flags ↔ f = 2 ^ 25 ∨ f = 2 ^ 26 ∨ f = 2 ^ 28 ∨ f = 2 ^ 29 ∨ f = 2 ^ 30 := by
  simp [block_flags, BLOCK_HAS_COPY_DISPOSE, BLOCK_HAS_CTOR, BLOCK_IS_GLOBAL, BLOCK_USE_SRET,
    BLOCK_HAS_SIGNATURE, Nat.one_shiftLeft]

theorem mem_block_flags_pow {f : Nat} (hf : f ∈ block_flags) :
    ∃ k, 24 ≤ k ∧ k < 32 ∧ f = 2 ^ k := by
  rcases (mem_block_flags_iff f).1 hf with h | h | h | h | h
  · exact ⟨25, by omega, by omega, h⟩
  · exact ⟨26, by omega, by omega, h⟩
  · exact ⟨28, by omega, by omega, h⟩
  · exact ⟨29, by omega, by omega, h⟩
  · exact ⟨30, by omega, by omega, h⟩

theorem word_or_pow_mod (w k : Nat) (hk : 24 ≤ k) :
    word_or w (2 ^ k) % 2 ^ 24 = w % 2 ^ 24 := by
  unfold word_or
  apply Nat.eq_of_testBit_eq
  intro i
  simp only [Nat.testBit_mod_two_pow, Nat.testBit_or, Nat.testBit_two_pow]
  by_cases hi : i < 24
  · have h1 : i < 32 := by omega
    have h2 : ¬ k = i := by omega
    simp [hi, h1, h2]
  · simp [hi]

theorem word_andnot_pow_mod (w k : Nat) (hk : 24 ≤ k) :
    word_andnot w (2 ^ k) % 2 ^ 24 = w % 2 ^ 24 := by
  unfold word_andnot
  apply Nat.eq_of_testBit_eq
  intro i
  simp only [Nat.testBit_mod_two_pow, Nat.testBit_and, Nat.testBit_xor,
    Nat.testBit_two_pow_sub_one, Nat.testBit_two_pow]
  by_cases hi : i < 24
  · have h1 : i < 32 := by omega
    have h2 : ¬ k = i := by omega
    simp [hi, h1, h2]
  · simp [hi]

/-- C3: reading a word through `BLOCK_REFCOUNT_MASK` gives its low 24 bits, each
of the five flag constants has no bit under the mask, and setting (`w | f`) or
clearing (`w & ~f`) a flag in a word leaves the count read through the mask
unchanged. -/
theorem refcount_mask_low_24_bits :
    (∀ w : Nat, w &&& BLOCK_REFCOUNT_MASK = w % 2 ^ 24) ∧
    (∀ f ∈ block_flags, f &&& BLOCK_REFCOUNT_MASK = 0) ∧
    (∀ w : Nat, ∀ f ∈ block_flags,
      word_or w f &&& BLOCK_REFCOUNT_MASK = w &&& BLOCK_REFCOUNT_MASK ∧
      word_andnot w f &&& BLOCK_REFCOUNT_MASK = w &&& BLOCK_REFCOUNT_MASK) := by
  refine ⟨and_refcount_mask, by decide, ?_⟩
  intro w f hf
  obtain ⟨k, hk, _, rfl⟩ := mem_block_flags_pow hf
  simp only [and_refcount_mask]
  exact ⟨word_or_pow_mod w k hk, word_andnot_pow_mod w k hk⟩

theorem IS_SET_iff (x y : Nat) : IS_SET x y = true ↔ x &&& y = y := by
  simp [IS_SET]

theorem and_eq_right_iff_testBit (x y : Nat) :
    x &&& y = y ↔ ∀ i, y.testBit i = true → x.testBit i = true := by
  constructor
  · intro h i hi
    have := congrArg (fun n => Nat.testBit n i) h
    simp only [Nat.testBit_and, hi, Bool.and_true] at this
    exact this
  · intro h
    apply Nat.eq_of_testBit_eq
    intro i
    rw [Nat.testBit_and]
    cases hy : y.testBit i
    · simp
    · simp [h i hy]

/-- C10: `IS_SET(x, y)` holds exactly when every bit of `y` is a bit of `x`;
every kind word with the bits of `BLOCK_FIELD_IS_BLOCK` has the bits of
`BLOCK_FIELD_IS_OBJECT`; no other base kind contains another. -/
theorem IS_SET_bits_and_kind_containment :
    (∀ x y : Nat, IS_SET x y = true ↔ ∀ i, y.testBit i = true → x.testBit i = true) ∧
    (∀ k : Nat, IS_SET k BLOCK_FIELD_IS_BLOCK = true → IS_SET k BLOCK_FIELD_IS_OBJECT = true) ∧
    IS_SET BLOCK_FIELD_IS_BLOCK BLOCK_FIELD_IS_OBJECT = true ∧
    IS_SET BLOCK_FIELD_IS_OBJECT BLOCK_FIELD_IS_BLOCK = false ∧
    IS_SET BLOCK_FIELD_IS_OBJECT BLOCK_FIELD_IS_BYREF = false ∧
    IS_SET BLOCK_FIELD_IS_BLOCK BLOCK_FIELD_IS_BYREF = false ∧
    IS_SET BLOCK_FIELD_IS_BYREF BLOCK_FIELD_IS_OBJECT = false ∧
    IS_SET BLOCK_FIELD_IS_BYREF BLOCK_FIELD_IS_BLOCK = false := by
  refine ⟨fun x y => (IS_SET_iff x y).trans (and_eq_right_iff_testBit x y), ?_,
    by decide, by decide, by decide, by decide, by decide, by decide⟩
  intro k hk
  rw [IS_SET_iff] at hk ⊢
  have h3 : BLOCK_FIELD_IS_OBJECT = BLOCK_FIELD_IS_BLOCK &&& BLOCK_FIELD_IS_OBJECT := by decide
  rw [h3, ← Nat.and_assoc, hk]

/-- C4: `struct block_literal` has the members isa, flags, reserved, invoke,
descriptor in this order; with pointers of `P` bytes (`P` four or eight),
four-byte `int` and natural alignment they lie at 0, P, P+4, P+8, 2P+8, the
record ends at 3P+8 and has no padding. -/
theorem block_literal_layout (P L : Nat) (hP : P = 4 ∨ P = 8) :
    block_literal_members.map Prod.fst = ["isa", "flags", "reserved", "invoke", "descriptor"] ∧
    block_literal_members.map Prod.snd =
      [CType.voidPtr, CType.int, CType.int, CType.fnPtr,
       CType.structPtr "block_descriptor_copydispose"] ∧
    layout ⟨P, L⟩ block_literal_members =
      [("isa", 0), ("flags", P), ("reserved", P + 4), ("invoke", P + 8),
       ("descriptor", 2 * P + 8)] ∧
    sizeOfRecord ⟨P, L⟩ block_literal_members = 3 * P + 8 ∧
    sumOfSizes ⟨P, L⟩ block_literal_members = sizeOfRecord ⟨P, L⟩ block_literal_members := by
  rcases hP with rfl | rfl <;>
    simp [block_literal_members, layout, layoutFrom, sizeOfRecord, endFrom, recordAlign,
      sumOfSizes, alignUp, CType.align, CType.size]

/-- Witness for C4: the LP64 target. -/
theorem block_literal_layout_witness :
    (8 = 4 ∨ 8 = 8) ∧
    layout ⟨8, 8⟩ block_literal_members =
      [("isa", 0), ("flags", 8), ("reserved", 8 + 4), ("invoke", 8 + 8),
       ("descriptor", 2 * 8 + 8)] ∧
    sizeOfRecord ⟨8, 8⟩ block_literal_members = 3 * 8 + 8 :=
  ⟨by decide, (block_literal_layout 8 8 (by decide)).2.2.1,
    (block_literal_layout 8 8 (by decide)).2.2.2.1⟩

/-- C5: `struct block_byref_obj` has the members isa, forwarding, flags, size,
byref_keep, byref_dispose in this order; with pointers of `P` bytes (`P` four
or eight), four-byte `int` and natural alignment they lie at 0, P, 2P, 2P+4,
2P+8, 3P+8, the payload begins at 4P+8 and the record has no padding. -/
theorem block_byref_obj_layout (P L : Nat) (hP : P = 4 ∨ P = 8) :
    block_byref_obj_members.map Prod.fst =
      ["isa", "forwarding", "flags", "size", "byref_keep", "byref_dispose"] ∧
    block_byref_obj_members.map Prod.snd =
      [CType.voidPtr, CType.structPtr "block_byref_obj", CType.int, CType.int, CType.fnPtr,
       CType.fnPtr] ∧
    layout ⟨P, L⟩ block_byref_obj_members =
      [("isa", 0), ("forwarding", P), ("flags", 2 * P), ("size", 2 * P + 4),
       ("byref_keep", 2 * P + 8), ("byref_dispose", 3 * P + 8)] ∧
    sizeOfRecord ⟨P, L⟩ block_byref_obj_members = 4 * P + 8 ∧
    sumOfSizes ⟨P, L⟩ block_byref_obj_members =
      sizeOfRecord ⟨P, L⟩ block_byref_obj_members := by
  rcases hP with rfl | rfl <;>
    simp [block_byref_obj_members, layout, layoutFrom, sizeOfRecord, endFrom, recordAlign,
      sumOfSizes, alignUp, CType.align, CType.size]

/-- Witness for C5: the ILP32 target. -/
theorem block_byref_obj_layout_witness :
    (4 = 4 ∨ 4 = 8) ∧
    layout ⟨4, 4⟩ block_byref_obj_members =
      [("isa", 0), ("forwarding", 4), ("flags", 2 * 4), ("size", 2 * 4 + 4),
       ("byref_keep", 2 * 4 + 8), ("byref_dispose", 3 * 4 + 8)] ∧
    sizeOfRecord ⟨4, 4⟩ block_byref_obj_members = 4 * 4 + 8 :=
  ⟨by decide, (block_byref_obj_layout 4 4 (by decide)).2.2.1,
    (block_byref_obj_layout 4 4 (by decide)).2.2.2.1⟩

/-- C6: both descriptor records begin with reserved and size, at the same
offsets on every target; the helper variant continues with copy_helper,
dispose_helper, encoding, the bare variant with encoding, which lies at the
offset the helper variant gives to copy_helper. -/
theorem descriptor_variants_common_start (t : Target) :
    block_descriptor_copydispose_members.map Prod.fst =
      ["reserved", "size", "copy_helper", "dispose_helper", "encoding"] ∧
    block_descriptor_members.map Prod.fst = ["reserved", "size", "encoding"] ∧
    block_descriptor_copydispose_members.take 2 = block_descriptor_members.take 2 ∧
    (layout t block_descriptor_copydispose_members).take 2 =
      (layout t block_descriptor_members).take 2 ∧
    offsetOf t block_descriptor_members "reserved" =
      offsetOf t block_descriptor_copydispose_members "reserved" ∧
    offsetOf t block_descriptor_members "size" =
      offsetOf t block_descriptor_copydispose_members "size" ∧
    offsetOf t block_descriptor_members "encoding" =
      offsetOf t block_descriptor_copydispose_members "copy_helper" ∧
    (∃ o, offsetOf t block_descriptor_members "size" = some o) ∧
    (∃ o, offsetOf t block_descriptor_members "encoding" = some o) ∧
    block_literal_members.lookup "descriptor" =
      some (CType.structPtr "block_descriptor_copydispose") := by
  refine ⟨by decide, by decide, by decide, ?_, ?_, ?_, ?_, ?_, ?_, by decide⟩ <;>
    simp [block_descriptor_copydispose_members, block_descriptor_members, layout, layoutFrom,
      offsetOf, List.lookup, CType.align, CType.size]

/-! theorems about the lifecycle model -/

theorem copy_succ (fuel : Nat) (σ : Runtime) (a : Nat) :
    copy (fuel + 1) σ a =
      match σ.mem a with
      | some (.block b) =>
        match classify b.isa with
        | .Static => .ok (σ, a)
        | .Persistent => .ok (σ.store a (.block { b with reserved := b.reserved + 1 }), a)
        | .Transient =>
          if IS_SET b.flags BLOCK_HAS_COPY_DISPOSE then
            match copy_helper (assign fuel) σ.malloc.2 0
              ((σ.malloc.1).store σ.malloc.2 (.block { b with isa := .other 0, reserved := 1 }))
              b.vars with
            | .ok σ2 => .ok (σ2, σ.malloc.2)
            | .error e => .error e
          else .ok ((σ.malloc.1).store σ.malloc.2
            (.block { b with isa := .other 0, reserved := 1 }), σ.malloc.2)
      | _ => .error .contract := by
  rw [copy]

theorem release_succ (fuel : Nat) (σ : Runtime) (a : Nat) :
    release (fuel + 1) σ a =
      match σ.mem a with
      | some (.block b) =>
        match classify b.isa with
        | .Static => .ok σ
        | _ =>
          if b.reserved = 0 then .error .underflow
          else if b.reserved - 1 ≠ 0 then
            .ok (σ.store a (.block { b with reserved := b.reserved - 1 }))
          else
            if IS_SET b.flags BLOCK_HAS_COPY_DISPOSE then
              match dispose_helper (dispose fuel) (σ.store a (.block { b with reserved := 0 }))
                b.vars with
              | .ok σ2 => .ok (σ2.free a)
              | .error e => .error e
            else .ok ((σ.store a (.block { b with reserved := 0 })).free a)
      | _ => .error .contract := by
  rw [release]

/-- C7: on a static closure `copy` returns the same identity and leaves the
whole state as it was, and so does the following `release`: nothing is
allocated, nothing is freed and no count changes. -/
theorem static_copy_release_noop (fuel : Nat) (σ : Runtime) (s : Nat) (b : block_literal)
    (hs : σ.mem s = some (.block b)) (hst : classify b.isa = .Static) :
    copy (fuel + 1) σ s = .ok (σ, s) ∧
    release (fuel + 1) σ s = .ok σ ∧
    ((copy (fuel + 1) σ s).bind fun r => release (fuel + 1) r.1 r.2) = .ok σ := by
  have hc : copy (fuel + 1) σ s = .ok (σ, s) := by
    rw [copy_succ, hs]; simp only [hst]
  have hr : release (fuel + 1) σ s = .ok σ := by
    rw [release_succ, hs]; simp only [hst]
  refine ⟨hc, hr, ?_⟩
  rw [hc]
  exact hr

/-- Witness for C7: the global closure of the sample state. -/
theorem static_copy_release_noop_witness :
    sampleRuntime.mem 4 = some (.block sampleGlobalBlock) ∧
    classify sampleGlobalBlock.isa = .Static ∧
    copy 1 sampleRuntime 4 = .ok (sampleRuntime, 4) ∧
    release 1 sampleRuntime 4 = .ok sampleRuntime :=
  ⟨rfl, rfl, (static_copy_release_noop 0 sampleRuntime 4 sampleGlobalBlock rfl rfl).1,
    (static_copy_release_noop 0 sampleRuntime 4 sampleGlobalBlock rfl rfl).2.1⟩

theorem free_mem (σ : Runtime) (a : Nat) :
    (σ.free a).mem a = none ∧ (σ.free a).frees = a :: σ.frees := by
  simp [Runtime.free]

end Blocks
